import Mathlib

/-!
# Session manager of `session/session.go`

A shallow embedding of the package `session` (file `session/session.go`):
the provider registry (`Register`) and the methods of `Manager`
(`sessionID`, `SessionStart`, `SessionDestroy`, `GC`).

Conventions of the embedding.

* A Go `string` is a Lean `String` read as a byte string: every character
  stands for one byte.
* A Go `error` is a value of `Error`; a returned `error` is an
  `Option Error` (`none` is `nil`) and a `(T, error)` pair is an
  `Except Error T` (the code never looks at the `T` of a failed call and
  returns `nil` for it itself).
* `Provider` is an interface: a provider is a record of four functions over
  its own store `σ`, threaded explicitly.
* Every call that leaves the function (the request cookie lookup, the mutex,
  the provider, `http.SetCookie`, `time.Now`, `time.AfterFunc`) appends one
  `Event` to the trace of the environment, in program order. A deferred call
  runs when the surrounding function returns.
* The response `w` is the list of the cookies that `http.SetCookie` added as
  `Set-Cookie` headers; as in `net/http`, a cookie whose name is not a valid
  cookie name is not added, and the cookie parser of the request skips such
  names.
* `int64` values are integers in the range of `IsInt64`; `int` is 64 bits
  wide, as on the amd64 and arm64 targets.
-/

namespace Session

/-! ## Values -/

/-- Go `error` values that occur in the package. -/
inductive Error where
  /-- the value `http.ErrNoCookie` -/
  | ErrNoCookie
  /-- an error made by `fmt.Errorf` -/
  | Errorf (msg : String)
  /-- the type `url.EscapeError` -/
  | EscapeError (s : String)
  /-- any error of a provider -/
  | Other (msg : String)
  deriving DecidableEq, Repr

/-- The type `time.Time`, as an instant counted in nanoseconds. -/
abbrev Time := Nat

/-- The fields of `http.Cookie` that the package sets or reads; a field
that is left out of a literal has its zero value. `Expires = none` is the
zero `time.Time`. -/
structure Cookie where
  Name : String := ""
  Value : String := ""
  Path : String := ""
  HttpOnly : Bool := false
  MaxAge : Int := 0
  Expires : Option Time := none
  deriving DecidableEq, Repr

/-- The part of `*http.Request` the package reads: the cookies sent by the
client, in header order. -/
structure Request where
  cookies : List Cookie
  deriving DecidableEq, Repr

/-- The function a timer runs; the package only ever schedules
`manager.GC`. -/
inductive Callback where
  | managerGC
  deriving DecidableEq, Repr

/-- One pending `time.AfterFunc(delay, callback)`; `delay` is a
`time.Duration`, a count of nanoseconds. -/
structure Timer where
  delay : Int
  callback : Callback
  deriving DecidableEq, Repr

/-- The calls that leave a method of the package, as they appear in a
trace. -/
inductive Event where
  /-- `r.Cookie(name)` -/
  | cookieRead (name : String)
  /-- `manager.mu.Lock()` -/
  | lock
  /-- `manager.mu.Unlock()` -/
  | unlock
  /-- `manager.provider.SessionInit(sid)` -/
  | sessionInit (sid : String)
  /-- `manager.provider.SessionRead(sid)` -/
  | sessionRead (sid : String)
  /-- `manager.provider.SessionDestroy(sid)` -/
  | sessionDestroy (sid : String)
  /-- `manager.provider.SessionGC(maxLifeTime)` -/
  | sessionGC (maxLifeTime : Int)
  /-- `http.SetCookie(w, c)` -/
  | setCookie (c : Cookie)
  /-- `time.Now()` -/
  | timeNow
  /-- `time.AfterFunc(d, f)` -/
  | afterFunc (d : Int)
  /-- `providersMu.Lock()` -/
  | providersLock
  /-- `providersMu.Unlock()` -/
  | providersUnlock
  deriving DecidableEq, Repr

deriving instance DecidableEq for Except

/-! ## Machine integers -/

/-- Two's complement value of `x` in `bits` bits. -/
def wrapSigned (bits : Nat) (x : Int) : Int :=
  (x + 2 ^ (bits - 1)) % 2 ^ bits - 2 ^ (bits - 1)

/-- The values of the type `int64`. -/
def IsInt64 (x : Int) : Prop := -(2 ^ 63) ≤ x ∧ x < 2 ^ 63

instance (x : Int) : Decidable (IsInt64 x) := by unfold IsInt64; infer_instance

/-- Width of the type `int`. -/
def intBits : Nat := 64

/-- The conversion `int(x)` of an `int64`. -/
def toInt (x : Int) : Int := wrapSigned intBits x

/-- The conversion `time.Duration(x)` of an `int64`: `Duration` is an
`int64` that counts nanoseconds, the number is kept. -/
def Duration (x : Int) : Int := wrapSigned 64 x

/-- The constant `time.Second`, in nanoseconds. -/
def Second : Int := 1000000000

/-! ## `net/url`: `QueryEscape` and `QueryUnescape` -/

/-- `ishex` of `net/url`. -/
def ishex (c : Char) : Bool :=
  ('0' ≤ c && c ≤ '9') || ('a' ≤ c && c ≤ 'f') || ('A' ≤ c && c ≤ 'F')

/-- `unhex` of `net/url`. -/
def unhex (c : Char) : Nat :=
  if '0' ≤ c && c ≤ '9' then c.toNat - '0'.toNat
  else if 'a' ≤ c && c ≤ 'f' then c.toNat - 'a'.toNat + 10
  else if 'A' ≤ c && c ≤ 'F' then c.toNat - 'A'.toNat + 10
  else 0

/-- `shouldEscape(c, encodeQueryComponent)` of `net/url`: only letters,
digits and `-`, `_`, `.`, `~` are kept. -/
def shouldEscape (c : Char) : Bool :=
  !(('a' ≤ c && c ≤ 'z') || ('A' ≤ c && c ≤ 'Z') || ('0' ≤ c && c ≤ '9')
    || c = '-' || c = '_' || c = '.' || c = '~')

/-- The table `upperhex` of `net/url`, at index `n`. -/
def upperhex (n : Nat) : Char :=
  "0123456789ABCDEF".data.getD n '0'

/-- Escaping of one byte in `escape(s, encodeQueryComponent)`. -/
def escapeByte (c : Char) : List Char :=
  if shouldEscape c then
    if c = ' ' then ['+']
    else ['%', upperhex (c.toNat / 16), upperhex (c.toNat % 16)]
  else [c]

/-- `url.QueryEscape`. -/
def QueryEscape (s : String) : String :=
  String.mk (s.data.flatMap escapeByte)

/-- The loop of `unescape(s, encodeQueryComponent)`: a `%` must be followed
by two hexadecimal digits, otherwise the call fails with the `EscapeError`
of the offending three bytes at most; `+` becomes a space. -/
def unescapeBytes : List Char → Except Error (List Char)
  | [] => .ok []
  | c :: s =>
    if c = '%' then
      match s with
      | a :: b :: t =>
        if ishex a && ishex b then
          match unescapeBytes t with
          | .ok out => .ok (Char.ofNat (unhex a * 16 + unhex b) :: out)
          | .error err => .error err
        else .error (.EscapeError (String.mk [c, a, b]))
      | _ => .error (.EscapeError (String.mk (c :: s)))
    else
      match unescapeBytes s with
      | .ok out => .ok ((if c = '+' then ' ' else c) :: out)
      | .error err => .error err

/-- `url.QueryUnescape`. -/
def QueryUnescape (s : String) : Except Error String :=
  match unescapeBytes s.data with
  | .ok out => .ok (String.mk out)
  | .error err => .error err

/-! ## The environment of a call -/

/-- The interface `Provider`. `σ` is the store of the provider and `S` the
type of its sessions (the interface `Session`). -/
structure Provider (σ S : Type) where
  SessionInit : String → σ → Except Error S × σ
  SessionRead : String → σ → Except Error S × σ
  SessionDestroy : String → σ → Option Error × σ
  SessionGC : Int → σ → σ

/-- What a method of the manager acts on: the store of the provider, the
cookies of the `Set-Cookie` headers added to the response `w`, the pending
timers, the clock read by `time.Now`, and the trace of the calls made so
far. -/
structure Env (σ : Type) where
  store : σ
  w : List Cookie := []
  timers : List Timer := []
  clock : Time := 0
  trace : List Event := []

/-- Appends an event to the trace. -/
def Env.emit {σ : Type} (e : Event) (env : Env σ) : Env σ :=
  { env with trace := env.trace ++ [e] }

/-- `httpguts.IsTokenRune`: the characters of an HTTP token, that is the
letters, the digits and the punctuation of the table `isTokenTable`
(the codes 39 and 96 are the apostrophe and the grave accent). -/
def isTokenRune (c : Char) : Bool :=
  ('a' ≤ c && c ≤ 'z') || ('A' ≤ c && c ≤ 'Z') || ('0' ≤ c && c ≤ '9')
    || "!#$%&*+-.^_|~".data.contains c || c.toNat = 39 || c.toNat = 96

/-- `isCookieNameValid` of `net/http`: the name is not empty and all its
characters are token characters. -/
def isCookieNameValid (raw : String) : Bool :=
  raw != "" && raw.data.all isTokenRune

/-- `r.Cookie(name)`: `http.ErrNoCookie` for the empty name; otherwise the
first cookie of the request with that name, where `readCookies` skips the
cookies whose name is not valid, or `http.ErrNoCookie` when there is
none. -/
def Request.Cookie (r : Request) (name : String) : Except Error Cookie :=
  if name = "" then .error .ErrNoCookie
  else
    match r.cookies.find? (fun c => isCookieNameValid c.Name && c.Name == name) with
    | some c => .ok c
    | none => .error .ErrNoCookie

/-- The call `r.Cookie(name)`, traced. -/
def requestCookie {σ : Type} (r : Request) (name : String) (env : Env σ) :
    Except Error Cookie × Env σ :=
  (r.Cookie name, env.emit (.cookieRead name))

/-- `manager.mu.Lock()`. -/
def muLock {σ : Type} (env : Env σ) : Env σ := env.emit .lock

/-- `manager.mu.Unlock()`. -/
def muUnlock {σ : Type} (env : Env σ) : Env σ := env.emit .unlock

/-- `defer f()`: `f` runs when the body returns, whatever it returns. -/
def deferred {σ α : Type} (f : Env σ → Env σ) (body : α × Env σ) : α × Env σ :=
  (body.1, f body.2)

/-- `http.SetCookie(w, c)`: the header `Set-Cookie` is added when
`c.String()` is not empty, that is when the name of the cookie is valid;
with a name that is not valid the call adds nothing to the response. -/
def httpSetCookie {σ : Type} (c : Cookie) (env : Env σ) : Env σ :=
  { env with w := if isCookieNameValid c.Name then env.w ++ [c] else env.w,
             trace := env.trace ++ [.setCookie c] }

/-- `time.Now()`. -/
def timeNow {σ : Type} (env : Env σ) : Time × Env σ :=
  (env.clock, env.emit .timeNow)

/-- `time.AfterFunc(d, f)`. -/
def timeAfterFunc {σ : Type} (d : Int) (f : Callback) (env : Env σ) : Env σ :=
  { env with timers := env.timers ++ [⟨d, f⟩], trace := env.trace ++ [.afterFunc d] }

/-- The call `provider.SessionInit(sid)`. -/
def providerSessionInit {σ S : Type} (p : Provider σ S) (sid : String) (env : Env σ) :
    Except Error S × Env σ :=
  ((p.SessionInit sid env.store).1,
    { env with store := (p.SessionInit sid env.store).2,
               trace := env.trace ++ [.sessionInit sid] })

/-- The call `provider.SessionRead(sid)`. -/
def providerSessionRead {σ S : Type} (p : Provider σ S) (sid : String) (env : Env σ) :
    Except Error S × Env σ :=
  ((p.SessionRead sid env.store).1,
    { env with store := (p.SessionRead sid env.store).2,
               trace := env.trace ++ [.sessionRead sid] })

/-- The call `provider.SessionDestroy(sid)`. -/
def providerSessionDestroy {σ S : Type} (p : Provider σ S) (sid : String) (env : Env σ) :
    Option Error × Env σ :=
  ((p.SessionDestroy sid env.store).1,
    { env with store := (p.SessionDestroy sid env.store).2,
               trace := env.trace ++ [.sessionDestroy sid] })

/-- The call `provider.SessionGC(maxLifeTime)`. -/
def providerSessionGC {σ S : Type} (p : Provider σ S) (maxLifeTime : Int) (env : Env σ) :
    Env σ :=
  { env with store := p.SessionGC maxLifeTime env.store,
             trace := env.trace ++ [.sessionGC maxLifeTime] }

/-! ## The manager -/

/-- The type `Manager`; the field `mu` is the mutex of the events `lock` and
`unlock`. -/
structure Manager (σ S : Type) where
  cookieName : String
  provider : Provider σ S
  maxLifeTime : Int

/-- `Manager.sessionID`: the body is `return ""` under a `TODO` comment. -/
def Manager.sessionID {σ S : Type} (_manager : Manager σ S) : String := ""

/-- Lines 59 to 67 of `SessionStart`, the branch taken when
`err != nil || cookie.Value == ""`. -/
def Manager.startNew {σ S : Type} (manager : Manager σ S) (env : Env σ) :
    Except Error S × Env σ :=
  let sid := manager.sessionID
  match providerSessionInit manager.provider sid env with
  | (.error err, env) => (.error err, env)
  | (.ok session, env) =>
    let newCookie : Cookie :=
      { Name := manager.cookieName, Value := QueryEscape sid,
        Path := "/", HttpOnly := true, MaxAge := toInt manager.maxLifeTime }
    let env := httpSetCookie newCookie env
    (.ok session, env)

/-- Lines 69 to 77 of `SessionStart`, reached with a cookie of non-empty
value. -/
def Manager.resume {σ S : Type} (manager : Manager σ S) (cookie : Cookie) (env : Env σ) :
    Except Error S × Env σ :=
  match QueryUnescape cookie.Value with
  | .error err => (.error err, env)
  | .ok sid =>
    match providerSessionRead manager.provider sid env with
    | (.error err, env) => (.error err, env)
    | (.ok session, env) => (.ok session, env)

/-- `Manager.SessionStart(w, r)`. -/
def Manager.SessionStart {σ S : Type} (manager : Manager σ S) (r : Request) (env : Env σ) :
    Except Error S × Env σ :=
  match requestCookie r manager.cookieName env with
  | (cookie, env) =>
    let env := muLock env
    deferred muUnlock <|
      match cookie with
      | .error _ => manager.startNew env
      | .ok cookie =>
        if cookie.Value = "" then manager.startNew env
        else manager.resume cookie env

/-- `Manager.SessionDestroy(w, r)`. -/
def Manager.SessionDestroy {σ S : Type} (manager : Manager σ S) (r : Request) (env : Env σ) :
    Option Error × Env σ :=
  match requestCookie r manager.cookieName env with
  | (.error err, env) => (some err, env)
  | (.ok cookie, env) =>
    if cookie.Value = "" then (some (.Errorf "cookie.Value is null"), env)
    else
      match QueryUnescape cookie.Value with
      | .error err => (some err, env)
      | .ok sid =>
        let env := muLock env
        deferred muUnlock <|
          match providerSessionDestroy manager.provider sid env with
          | (some err, env) => (some err, env)
          | (none, env) =>
            match timeNow env with
            | (expiration, env) =>
              let newCookie : Cookie :=
                { Name := manager.cookieName, Path := "/",
                  HttpOnly := true, MaxAge := -1, Expires := some expiration }
              let env := httpSetCookie newCookie env
              (none, env)

/-- `Manager.GC()`. -/
def Manager.GC {σ S : Type} (manager : Manager σ S) (env : Env σ) : Env σ :=
  let env := muLock env
  let env := providerSessionGC manager.provider manager.maxLifeTime env
  let env := timeAfterFunc (Duration manager.maxLifeTime) .managerGC env
  muUnlock env

/-! ## The registry -/

/-- The package variables `providers` and `providersMu`: the map from name
to provider (an interface value, `none` being `nil`) and the trace of the
mutex. -/
structure Registry (P : Type) where
  providers : String → Option (Option P)
  trace : List Event := []

/-- `Register(name, provider)`. The result is the panic message, if the
call panics, and the registry the call leaves. -/
def Register {P : Type} (name : String) (provider : Option P) (reg : Registry P) :
    Option String × Registry P :=
  let reg := { reg with trace := reg.trace ++ [.providersLock] }
  let out : Option String × Registry P :=
    if provider.isNone then
      (some "session: Register provider is nil", reg)
    else if (reg.providers name).isSome then
      (some ("session: Register called twice for provider " ++ name), reg)
    else
      (none, { reg with providers := fun k => if k = name then some provider else reg.providers k })
  (out.1, { out.2 with trace := out.2.trace ++ [.providersUnlock] })

/-! ## Traces of one call -/

/-- The events a call appended to the trace: those of `after` that follow
the ones already in `before`. -/
def callEvents {σ : Type} (before after : Env σ) : List Event :=
  after.trace.drop before.trace.length

/-- Calls of a method of the provider. -/
def Event.isProviderCall : Event → Bool
  | .sessionInit _ => true
  | .sessionRead _ => true
  | .sessionDestroy _ => true
  | .sessionGC _ => true
  | _ => false

/-- Calls of `provider.SessionInit`. -/
def Event.isSessionInit : Event → Bool
  | .sessionInit _ => true
  | _ => false

/-- Calls of `provider.SessionRead`. -/
def Event.isSessionRead : Event → Bool
  | .sessionRead _ => true
  | _ => false

/-- Calls of `http.SetCookie`. -/
def Event.isSetCookie : Event → Bool
  | .setCookie _ => true
  | _ => false

/-- Reads of the request cookie. -/
def Event.isCookieRead : Event → Bool
  | .cookieRead _ => true
  | _ => false

/-- Reads the events of one call in order, `held` telling whether
`manager.mu` is held: `lock` needs the mutex free, `unlock` needs it held,
an event selected by `inside` needs it held, and the mutex is free when the
call returns. -/
def lockDiscipline (inside : Event → Bool) : Bool → List Event → Bool
  | held, [] => !held
  | held, e :: es =>
    match e with
    | .lock => !held && lockDiscipline inside true es
    | .unlock => held && lockDiscipline inside false es
    | _ => (held || !inside e) && lockDiscipline inside held es

/-- The events placed in the critical section when the request cookie read
counts among them: the cookie read, the provider calls and the cookie
writes. -/
def readCallWrite (e : Event) : Bool :=
  e.isCookieRead || e.isProviderCall || e.isSetCookie

/-- The provider calls and the cookie writes. -/
def callWrite (e : Event) : Bool :=
  e.isProviderCall || e.isSetCookie

/-! ## Example inputs -/

/-- A session of the example provider. -/
structure MemSession where
  sid : String
  data : List (String × String) := []
  deriving DecidableEq, Repr

/-- The store of the example provider: its clock and, for every session, the
time of its last access. -/
structure MemStore where
  clock : Int := 0
  entries : List (MemSession × Int) := []
  deriving DecidableEq, Repr

/-- An example provider, used as a concrete input: a map from identifier to
session kept in memory. `SessionInit` refuses an identifier that is present,
`SessionRead` fails on an unknown one, `SessionDestroy` removes the entry
and `SessionGC` drops the entries idle for longer than the lifetime. The
repository ships no provider of its own. -/
def memProvider : Provider MemStore MemSession where
  SessionInit sid st :=
    if st.entries.any (fun e => e.1.sid == sid) then
      (.error (.Other "DuplicateSession"), st)
    else
      (.ok { sid := sid }, { st with entries := st.entries ++ [({ sid := sid }, st.clock)] })
  SessionRead sid st :=
    match st.entries.find? (fun e => e.1.sid == sid) with
    | none => (.error (.Other "SessionNotFound"), st)
    | some e =>
      let touched := st.entries.map (fun x => if x.1.sid == sid then (x.1, st.clock) else x)
      (.ok e.1, { st with entries := touched })
  SessionDestroy sid st :=
    (none, { st with entries := st.entries.filter (fun e => e.1.sid != sid) })
  SessionGC maxLifeTime st :=
    { st with entries := st.entries.filter (fun e => st.clock - maxLifeTime ≤ e.2) }

/-- An example provider whose backend is out of order: every call fails. -/
def downProvider : Provider Unit MemSession where
  SessionInit _ st := (.error (.Other "backend down"), st)
  SessionRead _ st := (.error (.Other "backend down"), st)
  SessionDestroy _ st := (some (.Other "backend down"), st)
  SessionGC _ st := st

/-- A manager over the example provider, with a lifetime of one hour. -/
def memManager : Manager MemStore MemSession :=
  { cookieName := "gosessionid", provider := memProvider, maxLifeTime := 3600 }

/-- A manager over the provider that is out of order. -/
def downManager : Manager Unit MemSession :=
  { cookieName := "gosessionid", provider := downProvider, maxLifeTime := 3600 }

/-- A manager over the example provider whose cookie name contains a space
and so is not a valid cookie name. -/
def badNameManager : Manager MemStore MemSession :=
  { cookieName := "bad name", provider := memProvider, maxLifeTime := 3600 }

/-- The environment before the first call: an empty store, nothing written,
the clock at 5. -/
def memEnv : Env MemStore :=
  { store := {}, clock := 5 }

/-- The environment of the manager that is out of order. -/
def downEnv : Env Unit :=
  { store := (), clock := 5 }

/-- A request without cookies. -/
def noCookie : Request := ⟨[]⟩

/-- The request of a client that sends the cookie `c` back: its name and
value. -/
def replay (c : Cookie) : Request :=
  ⟨[{ Name := c.Name, Value := c.Value }]⟩

/-- The environment of the next request: the store, the timers and the trace
are kept, the response is a new one. -/
def nextRequest {σ : Type} (env : Env σ) : Env σ :=
  { env with w := [] }

/-- The first call on the example manager: `SessionStart` on a request
without cookies, from the empty store. -/
def firstStart : Except Error MemSession × Env MemStore :=
  memManager.SessionStart noCookie memEnv

/-- The cookie the first call hands to the response. -/
def issuedCookie : Cookie :=
  { Name := "gosessionid", Value := "", Path := "/", HttpOnly := true, MaxAge := 3600 }

/-- A second client: `SessionStart` on another request without cookies,
after the first call. -/
def secondStart : Except Error MemSession × Env MemStore :=
  memManager.SessionStart noCookie (nextRequest firstStart.2)

/-- The first client again: `SessionStart` on a request that sends the
issued cookie back, after the first call. -/
def replayStart : Except Error MemSession × Env MemStore :=
  memManager.SessionStart (replay issuedCookie) (nextRequest firstStart.2)

/-- A registry that binds the name `memory` to the provider `1`. -/
def oneRegistry : Registry Nat :=
  { providers := fun k => if k = "memory" then some (some 1) else none }

/-! ## Lemmas on the paths of the methods -/

/-- The events of a call whose trace extends the one before by `evs` are `evs`. -/
theorem callEvents_of_append {σ : Type} (before after : Env σ) (evs : List Event)
    (h : after.trace = before.trace ++ evs) : callEvents before after = evs := by
  simp [callEvents, h]

/-- The conversion `int(x)` keeps every `int64`. -/
theorem toInt_of_isInt64 (x : Int) (h : IsInt64 x) : toInt x = x := by
  unfold IsInt64 at h
  unfold toInt wrapSigned intBits
  norm_num
  omega

/-- The conversion `time.Duration(x)` keeps every `int64`. -/
theorem Duration_of_isInt64 (x : Int) (h : IsInt64 x) : Duration x = x := by
  unfold IsInt64 at h
  unfold Duration wrapSigned
  norm_num
  omega

/-- A cookie that `r.Cookie(name)` finds has the name `name`, and the name
is a valid cookie name. -/
theorem Cookie_found {r : Request} {name : String} {c : Cookie}
    (h : r.Cookie name = .ok c) : c.Name = name ∧ isCookieNameValid name = true := by
  unfold Request.Cookie at h
  split at h
  · cases h
  · split at h
    · next found hfind =>
      cases h
      have hp := List.find?_some hfind
      simp only [Bool.and_eq_true, beq_iff_eq] at hp
      exact ⟨hp.2, hp.2 ▸ hp.1⟩
    · cases h

/-- The new-session branch when `SessionInit` fails: the error is returned,
nothing is written. -/
theorem startNew_error {σ S : Type} (manager : Manager σ S) (env : Env σ) (e : Error)
    (h : (manager.provider.SessionInit manager.sessionID env.store).1 = .error e) :
    manager.startNew env =
      (.error e,
        { env with store := (manager.provider.SessionInit manager.sessionID env.store).2,
                   trace := env.trace ++ [.sessionInit manager.sessionID] }) := by
  simp only [Manager.startNew, providerSessionInit, h]

/-- The new-session branch when `SessionInit` succeeds: the session is returned
and `http.SetCookie` is called once, which adds the cookie when its name is
valid. -/
theorem startNew_ok {σ S : Type} (manager : Manager σ S) (env : Env σ) (session : S)
    (h : (manager.provider.SessionInit manager.sessionID env.store).1 = .ok session) :
    manager.startNew env =
      (.ok session,
        { env with
          store := (manager.provider.SessionInit manager.sessionID env.store).2,
          w := if isCookieNameValid manager.cookieName then
              env.w ++ [{ Name := manager.cookieName,
                          Value := QueryEscape manager.sessionID,
                          Path := "/", HttpOnly := true,
                          MaxAge := toInt manager.maxLifeTime }]
            else env.w,
          trace := env.trace ++ [.sessionInit manager.sessionID,
            .setCookie { Name := manager.cookieName, Value := QueryEscape manager.sessionID,
                         Path := "/", HttpOnly := true,
                         MaxAge := toInt manager.maxLifeTime }] }) := by
  simp only [Manager.startNew, providerSessionInit, h, httpSetCookie, List.append_assoc,
    List.singleton_append]

/-- Without a session cookie of non-empty value, `SessionStart` runs the new-
session branch under the mutex. -/
theorem SessionStart_of_no_value {σ S : Type} (manager : Manager σ S) (r : Request)
    (env : Env σ) (h : ∀ c, r.Cookie manager.cookieName = .ok c → c.Value = "") :
    manager.SessionStart r env =
      deferred muUnlock
        (manager.startNew (muLock (env.emit (.cookieRead manager.cookieName)))) := by
  unfold Manager.SessionStart requestCookie
  cases hc : r.Cookie manager.cookieName with
  | error e => rfl
  | ok c => simp [h c hc]

/-- With a session cookie of non-empty value, `SessionStart` runs the read
branch under the mutex. -/
theorem SessionStart_of_value {σ S : Type} (manager : Manager σ S) (r : Request)
    (env : Env σ) (c : Cookie) (hc : r.Cookie manager.cookieName = .ok c)
    (hv : c.Value ≠ "") :
    manager.SessionStart r env =
      deferred muUnlock
        (manager.resume c (muLock (env.emit (.cookieRead manager.cookieName)))) := by
  unfold Manager.SessionStart requestCookie
  simp [hc, hv]

/-- The read branch when the cookie value cannot be unescaped: the error is
returned before any call. -/
theorem resume_bad_escape {σ S : Type} (manager : Manager σ S) (c : Cookie) (env : Env σ)
    (e : Error) (h : QueryUnescape c.Value = .error e) :
    manager.resume c env = (.error e, env) := by
  simp only [Manager.resume, h]

/-- The read branch when the cookie value unescapes to `sid`: the result is the
one of `SessionRead(sid)`. -/
theorem resume_read {σ S : Type} (manager : Manager σ S) (c : Cookie) (env : Env σ)
    (sid : String) (h : QueryUnescape c.Value = .ok sid) :
    manager.resume c env =
      ((manager.provider.SessionRead sid env.store).1,
        { env with store := (manager.provider.SessionRead sid env.store).2,
                   trace := env.trace ++ [.sessionRead sid] }) := by
  simp only [Manager.resume, h, providerSessionRead]
  cases (manager.provider.SessionRead sid env.store).1 <;> rfl

/-- The run of `SessionDestroy` when the request has no session cookie. -/
theorem SessionDestroy_absent {σ S : Type} (manager : Manager σ S) (r : Request)
    (env : Env σ) (e : Error) (h : r.Cookie manager.cookieName = .error e) :
    manager.SessionDestroy r env = (some e, env.emit (.cookieRead manager.cookieName)) := by
  simp only [Manager.SessionDestroy, requestCookie, h]

/-- The run of `SessionDestroy` when the session cookie has an empty value. -/
theorem SessionDestroy_empty {σ S : Type} (manager : Manager σ S) (r : Request)
    (env : Env σ) (c : Cookie) (h : r.Cookie manager.cookieName = .ok c)
    (hv : c.Value = "") :
    manager.SessionDestroy r env =
      (some (.Errorf "cookie.Value is null"), env.emit (.cookieRead manager.cookieName)) := by
  simp [Manager.SessionDestroy, requestCookie, h, hv]

/-- The run of `SessionDestroy` when the cookie value cannot be unescaped. -/
theorem SessionDestroy_bad_escape {σ S : Type} (manager : Manager σ S) (r : Request)
    (env : Env σ) (c : Cookie) (e : Error) (h : r.Cookie manager.cookieName = .ok c)
    (hv : c.Value ≠ "") (hu : QueryUnescape c.Value = .error e) :
    manager.SessionDestroy r env = (some e, env.emit (.cookieRead manager.cookieName)) := by
  simp [Manager.SessionDestroy, requestCookie, h, hv, hu]

/-- The run of `SessionDestroy` when the provider refuses to destroy the session. -/
theorem SessionDestroy_refused {σ S : Type} (manager : Manager σ S) (r : Request)
    (env : Env σ) (c : Cookie) (sid : String) (e : Error)
    (h : r.Cookie manager.cookieName = .ok c) (hv : c.Value ≠ "")
    (hu : QueryUnescape c.Value = .ok sid)
    (hd : (manager.provider.SessionDestroy sid env.store).1 = some e) :
    manager.SessionDestroy r env =
      (some e,
        { env with
          store := (manager.provider.SessionDestroy sid env.store).2,
          trace := env.trace ++ [.cookieRead manager.cookieName, .lock,
            .sessionDestroy sid, .unlock] }) := by
  simp [Manager.SessionDestroy, requestCookie, h, hv, hu, deferred, muLock, muUnlock,
    Env.emit, providerSessionDestroy, hd]

/-- The run of `SessionDestroy` when the provider destroys the session. -/
theorem SessionDestroy_done {σ S : Type} (manager : Manager σ S) (r : Request)
    (env : Env σ) (c : Cookie) (sid : String)
    (h : r.Cookie manager.cookieName = .ok c) (hv : c.Value ≠ "")
    (hu : QueryUnescape c.Value = .ok sid)
    (hd : (manager.provider.SessionDestroy sid env.store).1 = none) :
    manager.SessionDestroy r env =
      (none,
        { env with
          store := (manager.provider.SessionDestroy sid env.store).2,
          w := env.w ++ [{ Name := manager.cookieName, Path := "/", HttpOnly := true,
                           MaxAge := -1, Expires := some env.clock }],
          trace := env.trace ++ [.cookieRead manager.cookieName, .lock,
            .sessionDestroy sid, .timeNow,
            .setCookie { Name := manager.cookieName, Path := "/", HttpOnly := true,
                         MaxAge := -1, Expires := some env.clock },
            .unlock] }) := by
  simp [Manager.SessionDestroy, requestCookie, h, hv, hu, deferred, muLock, muUnlock,
    Env.emit, providerSessionDestroy, hd, timeNow, httpSetCookie, (Cookie_found h).2]

/-- The runs of `SessionDestroy` that fail on the cookie (absent, empty value,
value that cannot be unescaped) return after the cookie lookup, their only
call. -/
theorem SessionDestroy_early {σ S : Type} (manager : Manager σ S) (r : Request)
    (env : Env σ)
    (hcookie : ∀ c, r.Cookie manager.cookieName = .ok c →
      c.Value = "" ∨ ∃ e, QueryUnescape c.Value = .error e) :
    ∃ e, manager.SessionDestroy r env =
      (some e, env.emit (.cookieRead manager.cookieName)) := by
  cases hc : r.Cookie manager.cookieName with
  | error e => exact ⟨e, SessionDestroy_absent manager r env e hc⟩
  | ok c =>
    by_cases hv : c.Value = ""
    · exact ⟨_, SessionDestroy_empty manager r env c hc hv⟩
    · rcases hcookie c hc with h | ⟨e, he⟩
      · exact absurd h hv
      · exact ⟨e, SessionDestroy_bad_escape manager r env c e hc hv he⟩

/-- The run of `GC`. -/
theorem GC_eq {σ S : Type} (manager : Manager σ S) (env : Env σ) :
    manager.GC env =
      { env with
        store := manager.provider.SessionGC manager.maxLifeTime env.store,
        timers := env.timers ++ [⟨Duration manager.maxLifeTime, .managerGC⟩],
        trace := env.trace ++ [.lock, .sessionGC manager.maxLifeTime,
          .afterFunc (Duration manager.maxLifeTime), .unlock] } := by
  simp [Manager.GC, muLock, muUnlock, Env.emit, providerSessionGC, timeAfterFunc]

/-! ## `QueryEscape` and `QueryUnescape` are inverse on byte strings -/

set_option maxRecDepth 100000 in
/-- The two digits written for a byte are hexadecimal and read back as the
byte. -/
theorem hex_digits (n : Nat) (h : n < 256) :
    ishex (upperhex (n / 16)) = true ∧ ishex (upperhex (n % 16)) = true ∧
    unhex (upperhex (n / 16)) * 16 + unhex (upperhex (n % 16)) = n := by
  revert n
  decide

/-- A byte that is not escaped is neither `%` nor `+`. -/
theorem kept_byte (c : Char) (h : shouldEscape c = false) : c ≠ '%' ∧ c ≠ '+' := by
  constructor
  · rintro rfl
    revert h
    decide
  · rintro rfl
    revert h
    decide

/-- Unescaping a well-formed `%xy`. -/
theorem unescapeBytes_percent (a b : Char) (t : List Char) (h : (ishex a && ishex b) = true) :
    unescapeBytes ('%' :: a :: b :: t) =
      match unescapeBytes t with
      | .ok out => .ok (Char.ofNat (unhex a * 16 + unhex b) :: out)
      | .error err => .error err := by
  rw [unescapeBytes.eq_def]
  simp only [if_true, h]

/-- Unescaping a byte other than `%`. -/
theorem unescapeBytes_plain (c : Char) (s : List Char) (h : c ≠ '%') :
    unescapeBytes (c :: s) =
      match unescapeBytes s with
      | .ok out => .ok ((if c = '+' then ' ' else c) :: out)
      | .error err => .error err := by
  rw [unescapeBytes.eq_def]
  simp only [h, if_false]

/-- Unescaping undoes the escaping of one byte. -/
theorem unescapeBytes_escapeByte (c : Char) (hc : c.toNat < 256) (rest : List Char) :
    unescapeBytes (escapeByte c ++ rest) =
      match unescapeBytes rest with
      | .ok out => .ok (c :: out)
      | .error err => .error err := by
  unfold escapeByte
  by_cases hs : shouldEscape c = true
  · by_cases hsp : c = ' '
    · subst hsp
      rw [if_pos hs, if_pos rfl]
      exact unescapeBytes_plain '+' rest (by decide)
    · obtain ⟨h1, h2, h3⟩ := hex_digits c.toNat hc
      rw [if_pos hs, if_neg hsp]
      have hof : Char.ofNat c.toNat = c := by simp
      rw [List.cons_append, List.cons_append, List.cons_append, List.nil_append,
        unescapeBytes_percent _ _ _ (by simp [h1, h2]), h3, hof]
  · have hs2 : shouldEscape c = false := by simpa using hs
    obtain ⟨h1, h2⟩ := kept_byte c hs2
    rw [if_neg hs, List.cons_append, List.nil_append, unescapeBytes_plain c rest h1, if_neg h2]

/-- Unescaping undoes the escaping of a list of bytes. -/
theorem unescapeBytes_escape (s : List Char) (h : ∀ c ∈ s, c.toNat < 256) :
    unescapeBytes (s.flatMap escapeByte) = .ok s := by
  induction s with
  | nil => rfl
  | cons c s ih =>
    rw [List.flatMap_cons, unescapeBytes_escapeByte c (h c (List.mem_cons_self c s)),
      ih (fun d hd => h d (List.mem_cons_of_mem c hd))]

/-- Escaping then unescaping gives the string back, for every string of
bytes. -/
theorem QueryUnescape_QueryEscape (s : String) (h : ∀ c ∈ s.data, c.toNat < 256) :
    QueryUnescape (QueryEscape s) = .ok s := by
  unfold QueryUnescape QueryEscape
  rw [unescapeBytes_escape s.data h]

/-! ## `SessionStart` -/

/-- Counterexample of C2: the cookie name `bad name` is not a valid cookie
name. On a request without cookies `SessionInit` succeeds and `SessionStart`
returns its session without error, `http.SetCookie` is called once, and no
cookie is written to the response. -/
theorem SessionStart_invalid_name_writes_no_cookie :
    isCookieNameValid badNameManager.cookieName = false ∧
    noCookie.Cookie badNameManager.cookieName = .error .ErrNoCookie ∧
    (memProvider.SessionInit badNameManager.sessionID memEnv.store).1
      = .ok { sid := "" } ∧
    (badNameManager.SessionStart noCookie memEnv).1 = .ok { sid := "" } ∧
    (badNameManager.SessionStart noCookie memEnv).2.trace.filter Event.isSetCookie
      = [.setCookie { Name := "bad name", Value := "", Path := "/", HttpOnly := true,
                      MaxAge := 3600 }] ∧
    (badNameManager.SessionStart noCookie memEnv).2.w = [] := by
  decide

/-- C2, amended: when `cookieName` is a valid cookie name, the request has no
cookie named `cookieName`, or that cookie has an empty value, and
`SessionInit` succeeds on the generated identifier, `SessionStart` returns
the session of `SessionInit` without error and writes exactly one cookie to
the response, with the name `cookieName`, the escaped identifier as value,
the path `/`, `HttpOnly` set and `MaxAge` equal to `maxLifeTime`;
`SessionRead` is not called, and the calls made are, in order, the cookie
lookup, `Lock`, `SessionInit`, `SetCookie`, `Unlock`. -/
theorem SessionStart_new_session {σ S : Type} (manager : Manager σ S) (r : Request)
    (env : Env σ) (session : S)
    (hname : isCookieNameValid manager.cookieName = true)
    (hcookie : ∀ c, r.Cookie manager.cookieName = .ok c → c.Value = "")
    (hinit : (manager.provider.SessionInit manager.sessionID env.store).1 = .ok session)
    (hlife : IsInt64 manager.maxLifeTime) :
    (manager.SessionStart r env).1 = .ok session ∧
    (manager.SessionStart r env).2.w =
      env.w ++ [{ Name := manager.cookieName, Value := QueryEscape manager.sessionID,
                  Path := "/", HttpOnly := true, MaxAge := manager.maxLifeTime }] ∧
    (callEvents env (manager.SessionStart r env).2).filter Event.isSessionRead = [] ∧
    callEvents env (manager.SessionStart r env).2 =
      [.cookieRead manager.cookieName, .lock, .sessionInit manager.sessionID,
       .setCookie { Name := manager.cookieName, Value := QueryEscape manager.sessionID,
                    Path := "/", HttpOnly := true, MaxAge := manager.maxLifeTime },
       .unlock] ∧
    (manager.SessionStart r env).2.store =
      (manager.provider.SessionInit manager.sessionID env.store).2 := by
  have hout := SessionStart_of_no_value manager r env hcookie
  rw [startNew_ok manager _ session (by simpa [muLock, Env.emit] using hinit),
    toInt_of_isInt64 _ hlife, if_pos hname] at hout
  have hevents : callEvents env (manager.SessionStart r env).2 =
      [.cookieRead manager.cookieName, .lock, .sessionInit manager.sessionID,
       .setCookie { Name := manager.cookieName, Value := QueryEscape manager.sessionID,
                    Path := "/", HttpOnly := true, MaxAge := manager.maxLifeTime },
       .unlock] := by
    apply callEvents_of_append
    rw [hout]
    simp [deferred, muLock, muUnlock, Env.emit]
  refine ⟨?_, ?_, ?_, hevents, ?_⟩
  · rw [hout]; rfl
  · rw [hout]; rfl
  · rw [hevents]; rfl
  · rw [hout]; rfl

/-- Witness of C2, amended: a request whose session cookie has an empty
value, on the example manager. -/
theorem SessionStart_new_session_witness :
    (memManager.SessionStart ⟨[{ Name := "gosessionid", Value := "" }]⟩ memEnv).1
      = .ok { sid := "" } ∧
    (memManager.SessionStart ⟨[{ Name := "gosessionid", Value := "" }]⟩ memEnv).2.w
      = [{ Name := "gosessionid", Value := "", Path := "/", HttpOnly := true,
           MaxAge := 3600 }] :=
  have h := SessionStart_new_session memManager
    ⟨[{ Name := "gosessionid", Value := "" }]⟩ memEnv { sid := "" }
    (by decide)
    (by
      intro c hc
      have hfound : (⟨[{ Name := "gosessionid", Value := "" }]⟩ : Request).Cookie
          memManager.cookieName = .ok { Name := "gosessionid", Value := "" } := by decide
      rw [hfound] at hc
      cases hc
      rfl)
    (by decide) (by decide)
  ⟨h.1, h.2.1⟩

/-- Counterexample of C9: the store already holds the identifier that
`sessionID` generates; on a request without cookie `SessionStart` fails with
the error of the provider after a single call of `SessionInit`. -/
theorem SessionStart_does_not_retry :
    (memManager.SessionStart noCookie
        { store := { entries := [({ sid := "" }, 0)] } }).1
      = .error (.Other "DuplicateSession") ∧
    ((memManager.SessionStart noCookie
        { store := { entries := [({ sid := "" }, 0)] } }).2.trace.filter
          Event.isSessionInit).length = 1 := by
  decide

/-- C9, amended: when the request has no cookie named `cookieName`, or that
cookie has an empty value, and `SessionInit` fails on the generated
identifier, `SessionStart` calls `SessionInit` exactly once, returns the
error of that call and hands no cookie to the response. -/
theorem SessionStart_init_fails {σ S : Type} (manager : Manager σ S) (r : Request)
    (env : Env σ) (e : Error)
    (hcookie : ∀ c, r.Cookie manager.cookieName = .ok c → c.Value = "")
    (hinit : (manager.provider.SessionInit manager.sessionID env.store).1 = .error e) :
    (manager.SessionStart r env).1 = .error e ∧
    (callEvents env (manager.SessionStart r env).2).filter Event.isSessionInit =
      [.sessionInit manager.sessionID] ∧
    callEvents env (manager.SessionStart r env).2 =
      [.cookieRead manager.cookieName, .lock, .sessionInit manager.sessionID, .unlock] ∧
    (manager.SessionStart r env).2.w = env.w ∧
    (manager.SessionStart r env).2.store =
      (manager.provider.SessionInit manager.sessionID env.store).2 := by
  have hout := SessionStart_of_no_value manager r env hcookie
  rw [startNew_error manager _ e (by simpa [muLock, Env.emit] using hinit)] at hout
  have hevents : callEvents env (manager.SessionStart r env).2 =
      [.cookieRead manager.cookieName, .lock, .sessionInit manager.sessionID, .unlock] := by
    apply callEvents_of_append
    rw [hout]
    simp [deferred, muLock, muUnlock, Env.emit]
  refine ⟨?_, ?_, hevents, ?_, ?_⟩
  · rw [hout]; rfl
  · rw [hevents]; rfl
  · rw [hout]; rfl
  · rw [hout]; rfl

/-- Witness of C9, amended: the example manager on a store that already
holds the generated identifier. -/
theorem SessionStart_init_fails_witness :
    (memManager.SessionStart noCookie
        { store := { entries := [({ sid := "" }, 0)] } }).1
      = .error (.Other "DuplicateSession") ∧
    (memManager.SessionStart noCookie
        { store := { entries := [({ sid := "" }, 0)] } }).2.w = [] :=
  have h := SessionStart_init_fails memManager noCookie
    { store := { entries := [({ sid := "" }, 0)] } } (.Other "DuplicateSession")
    (by intro c hc; cases hc) (by decide)
  ⟨h.1, h.2.2.2.1⟩

/-- Counterexample of C4: on the example manager with an empty store, a
cookie whose value `%` cannot be unescaped, and a cookie that names the
unknown identifier `abc`, both make `SessionStart` return an error; no
session is created, `SessionInit` is not called and no cookie is handed to
the response. -/
theorem SessionStart_stale_cookie_is_an_error :
    (memManager.SessionStart ⟨[{ Name := "gosessionid", Value := "%" }]⟩ memEnv).1
      = .error (.EscapeError "%") ∧
    (memManager.SessionStart ⟨[{ Name := "gosessionid", Value := "%" }]⟩ memEnv).2.w = [] ∧
    (memManager.SessionStart ⟨[{ Name := "gosessionid", Value := "%" }]⟩ memEnv).2.trace
      = [.cookieRead "gosessionid", .lock, .unlock] ∧
    (memManager.SessionStart ⟨[{ Name := "gosessionid", Value := "abc" }]⟩ memEnv).1
      = .error (.Other "SessionNotFound") ∧
    (memManager.SessionStart ⟨[{ Name := "gosessionid", Value := "abc" }]⟩ memEnv).2.w = [] ∧
    (memManager.SessionStart ⟨[{ Name := "gosessionid", Value := "abc" }]⟩ memEnv).2.trace
      = [.cookieRead "gosessionid", .lock, .sessionRead "abc", .unlock] ∧
    (memManager.SessionStart ⟨[{ Name := "gosessionid", Value := "abc" }]⟩ memEnv).2.store
      = memEnv.store := by
  decide

/-- C4, amended: when the request carries a session cookie of non-empty
value that cannot be unescaped, or whose unescaped value names an identifier
on which `SessionRead` fails, `SessionStart` returns that error (the one of
`QueryUnescape`, or the one of `SessionRead`); it does not call
`SessionInit` and hands no cookie to the response. -/
theorem SessionStart_stale_cookie {σ S : Type} (manager : Manager σ S) (r : Request)
    (env : Env σ) (c : Cookie)
    (hc : r.Cookie manager.cookieName = .ok c) (hv : c.Value ≠ "")
    (hstale : (∃ e, QueryUnescape c.Value = .error e) ∨
      (∃ sid e, QueryUnescape c.Value = .ok sid ∧
        (manager.provider.SessionRead sid env.store).1 = .error e)) :
    (∃ e, (manager.SessionStart r env).1 = .error e ∧
      (QueryUnescape c.Value = .error e ∨
        ∃ sid, QueryUnescape c.Value = .ok sid ∧
          (manager.provider.SessionRead sid env.store).1 = .error e)) ∧
    (callEvents env (manager.SessionStart r env).2).filter Event.isSessionInit = [] ∧
    (callEvents env (manager.SessionStart r env).2).filter Event.isSetCookie = [] ∧
    (manager.SessionStart r env).2.w = env.w := by
  have hout := SessionStart_of_value manager r env c hc hv
  rcases hstale with ⟨e, he⟩ | ⟨sid, e, hsid, he⟩
  · rw [resume_bad_escape manager c _ e he] at hout
    have hevents : callEvents env (manager.SessionStart r env).2 =
        [.cookieRead manager.cookieName, .lock, .unlock] := by
      apply callEvents_of_append
      rw [hout]
      simp [deferred, muLock, muUnlock, Env.emit]
    refine ⟨⟨e, ?_, Or.inl he⟩, ?_, ?_, ?_⟩
    · rw [hout]; rfl
    · rw [hevents]; rfl
    · rw [hevents]; rfl
    · rw [hout]; rfl
  · rw [resume_read manager c _ sid hsid] at hout
    have hevents : callEvents env (manager.SessionStart r env).2 =
        [.cookieRead manager.cookieName, .lock, .sessionRead sid, .unlock] := by
      apply callEvents_of_append
      rw [hout]
      simp [deferred, muLock, muUnlock, Env.emit]
    refine ⟨⟨e, ?_, Or.inr ⟨sid, hsid, he⟩⟩, ?_, ?_, ?_⟩
    · rw [hout]; exact he
    · rw [hevents]; rfl
    · rw [hevents]; rfl
    · rw [hout]; rfl

/-- Witness of C4, amended: the cookie names an identifier the example
store does not hold. -/
theorem SessionStart_stale_cookie_witness :
    (∃ e, (memManager.SessionStart
        ⟨[{ Name := "gosessionid", Value := "abc" }]⟩ memEnv).1 = .error e ∧
      (QueryUnescape "abc" = .error e ∨
        ∃ sid, QueryUnescape "abc" = .ok sid ∧
          (memProvider.SessionRead sid memEnv.store).1 = .error e)) ∧
    (memManager.SessionStart ⟨[{ Name := "gosessionid", Value := "abc" }]⟩ memEnv).2.w
      = [] :=
  have h := SessionStart_stale_cookie memManager
    ⟨[{ Name := "gosessionid", Value := "abc" }]⟩ memEnv
    { Name := "gosessionid", Value := "abc" } (by decide) (by decide)
    (Or.inr ⟨"abc", .Other "SessionNotFound", by decide, by decide⟩)
  ⟨h.1, h.2.2.2⟩

/-! ## `SessionDestroy` -/

/-- C6: when the request has no cookie named `cookieName`, or that cookie
has an empty value or a value that `QueryUnescape` rejects, `SessionDestroy`
returns an error, makes no call to the provider (the only call of the whole
run is the cookie lookup), hands no cookie to the response and leaves the
store as it was. -/
theorem SessionDestroy_without_session_cookie {σ S : Type} (manager : Manager σ S)
    (r : Request) (env : Env σ)
    (hcookie : ∀ c, r.Cookie manager.cookieName = .ok c →
      c.Value = "" ∨ ∃ e, QueryUnescape c.Value = .error e) :
    (manager.SessionDestroy r env).1 ≠ none ∧
    (callEvents env (manager.SessionDestroy r env).2).filter Event.isProviderCall = [] ∧
    (callEvents env (manager.SessionDestroy r env).2).filter Event.isSetCookie = [] ∧
    (manager.SessionDestroy r env).2.w = env.w ∧
    (manager.SessionDestroy r env).2.store = env.store ∧
    callEvents env (manager.SessionDestroy r env).2 = [.cookieRead manager.cookieName] := by
  obtain ⟨e, hout⟩ := SessionDestroy_early manager r env hcookie
  have hevents : callEvents env (manager.SessionDestroy r env).2 =
      [.cookieRead manager.cookieName] := by
    apply callEvents_of_append
    rw [hout]
    rfl
  refine ⟨?_, ?_, ?_, ?_, ?_, hevents⟩
  · rw [hout]; simp
  · rw [hevents]; rfl
  · rw [hevents]; rfl
  · rw [hout]; rfl
  · rw [hout]; rfl

/-- Witness of C6: a session cookie whose value ends in an unfinished
escape. -/
theorem SessionDestroy_without_session_cookie_witness :
    (memManager.SessionDestroy ⟨[{ Name := "gosessionid", Value := "a%2" }]⟩ memEnv).1
      ≠ none ∧
    (memManager.SessionDestroy ⟨[{ Name := "gosessionid", Value := "a%2" }]⟩ memEnv).2.w
      = [] :=
  have h := SessionDestroy_without_session_cookie memManager
    ⟨[{ Name := "gosessionid", Value := "a%2" }]⟩ memEnv
    (by
      intro c hc
      cases hc
      exact Or.inr ⟨.EscapeError "%2", by decide⟩)
  ⟨h.1, h.2.2.2.1⟩

/-- C7: when the request carries a session cookie of non-empty value that
unescapes to `sid`, `SessionDestroy` calls the provider exactly once, with
`SessionDestroy(sid)`. If that call succeeds, `SessionDestroy` returns `nil`
and hands exactly one cookie to the response, with the name `cookieName`,
the path `/`, `HttpOnly` set, `MaxAge = -1` and `Expires` equal to the time
`time.Now` returns. If that call fails, `SessionDestroy` returns the error
of the provider and hands no cookie to the response. -/
theorem SessionDestroy_with_session_cookie {σ S : Type} (manager : Manager σ S)
    (r : Request) (env : Env σ) (c : Cookie) (sid : String)
    (hc : r.Cookie manager.cookieName = .ok c) (hv : c.Value ≠ "")
    (hsid : QueryUnescape c.Value = .ok sid) :
    (callEvents env (manager.SessionDestroy r env).2).filter Event.isProviderCall =
      [.sessionDestroy sid] ∧
    (manager.SessionDestroy r env).2.store =
      (manager.provider.SessionDestroy sid env.store).2 ∧
    ((manager.provider.SessionDestroy sid env.store).1 = none →
      (manager.SessionDestroy r env).1 = none ∧
      (manager.SessionDestroy r env).2.w =
        env.w ++ [{ Name := manager.cookieName, Path := "/", HttpOnly := true,
                    MaxAge := -1, Expires := some env.clock }] ∧
      (callEvents env (manager.SessionDestroy r env).2).filter Event.isSetCookie =
        [.setCookie { Name := manager.cookieName, Path := "/", HttpOnly := true,
                      MaxAge := -1, Expires := some env.clock }]) ∧
    (∀ e, (manager.provider.SessionDestroy sid env.store).1 = some e →
      (manager.SessionDestroy r env).1 = some e ∧
      (manager.SessionDestroy r env).2.w = env.w ∧
      (callEvents env (manager.SessionDestroy r env).2).filter Event.isSetCookie = []) := by
  cases hd : (manager.provider.SessionDestroy sid env.store).1 with
  | none =>
    have hout := SessionDestroy_done manager r env c sid hc hv hsid hd
    have hevents := callEvents_of_append env (manager.SessionDestroy r env).2 _
      (by rw [hout])
    refine ⟨?_, ?_, ?_, ?_⟩
    · rw [hevents]; rfl
    · rw [hout]
    · intro _
      refine ⟨?_, ?_, ?_⟩
      · rw [hout]
      · rw [hout]
      · rw [hevents]; rfl
    · intro e he
      cases he
  | some e =>
    have hout := SessionDestroy_refused manager r env c sid e hc hv hsid hd
    have hevents := callEvents_of_append env (manager.SessionDestroy r env).2 _
      (by rw [hout])
    refine ⟨?_, ?_, ?_, ?_⟩
    · rw [hevents]; rfl
    · rw [hout]
    · intro h
      cases h
    · intro e2 he
      cases he
      refine ⟨?_, ?_, ?_⟩
      · rw [hout]
      · rw [hout]
      · rw [hevents]; rfl

/-- Witness of C7: the cookie `a%2Fb` names the identifier `a/b`; the
example provider accepts the call and the response receives the expired
cookie. -/
theorem SessionDestroy_with_session_cookie_witness :
    (memManager.SessionDestroy ⟨[{ Name := "gosessionid", Value := "a%2Fb" }]⟩ memEnv).1
      = none ∧
    (memManager.SessionDestroy ⟨[{ Name := "gosessionid", Value := "a%2Fb" }]⟩ memEnv).2.w
      = [{ Name := "gosessionid", Path := "/", HttpOnly := true, MaxAge := -1,
           Expires := some 5 }] ∧
    (memManager.SessionDestroy
        ⟨[{ Name := "gosessionid", Value := "a%2Fb" }]⟩ memEnv).2.trace.filter
          Event.isProviderCall
      = [.sessionDestroy "a/b"] :=
  have h := SessionDestroy_with_session_cookie memManager
    ⟨[{ Name := "gosessionid", Value := "a%2Fb" }]⟩ memEnv
    { Name := "gosessionid", Value := "a%2Fb" } "a/b" (by decide) (by decide) (by decide)
  ⟨(h.2.2.1 (by decide)).1, (h.2.2.1 (by decide)).2.1, h.1⟩

/-! ## `GC` -/

/-- One run of `GC`, for every manager: under the mutex, one call of
`SessionGC` with `maxLifeTime`, then one timer for `manager.GC` whose delay
is `maxLifeTime` taken as a `time.Duration`, a number of nanoseconds. -/
theorem GC_run {σ S : Type} (manager : Manager σ S) (env : Env σ)
    (hlife : IsInt64 manager.maxLifeTime) :
    callEvents env (manager.GC env) =
      [.lock, .sessionGC manager.maxLifeTime, .afterFunc manager.maxLifeTime, .unlock] ∧
    (manager.GC env).timers = env.timers ++ [⟨manager.maxLifeTime, .managerGC⟩] ∧
    (manager.GC env).store = manager.provider.SessionGC manager.maxLifeTime env.store := by
  have hout := GC_eq manager env
  rw [Duration_of_isInt64 _ hlife] at hout
  refine ⟨?_, ?_, ?_⟩
  · apply callEvents_of_append
    rw [hout]
  · rw [hout]
  · rw [hout]

/-- C8 at a lifetime of 3600 seconds: `GC` calls `SessionGC(3600)` once and
schedules one further run of `manager.GC`, but with a delay of 3600
nanoseconds, where 3600 seconds are 3600000000000 nanoseconds. -/
theorem GC_delay_is_in_nanoseconds :
    memManager.maxLifeTime = 3600 ∧
    callEvents memEnv (memManager.GC memEnv) =
      [.lock, .sessionGC 3600, .afterFunc 3600, .unlock] ∧
    (memManager.GC memEnv).timers = [⟨3600, .managerGC⟩] ∧
    memManager.maxLifeTime * Second = 3600000000000 := by
  decide

/-! ## `Register` -/

/-- C5: `Register(name, provider)` panics exactly when `provider` is `nil`
or `name` is already bound. When it panics the map is unchanged. When it
returns, the map binds `name` to `provider` and every other name as before.
In both cases a name that was bound keeps its provider. -/
theorem Register_spec {P : Type} (name : String) (provider : Option P) (reg : Registry P) :
    ((Register name provider reg).1.isSome ↔
      (provider = none ∨ (reg.providers name).isSome)) ∧
    ((Register name provider reg).1.isSome →
      (Register name provider reg).2.providers = reg.providers) ∧
    ((Register name provider reg).1 = none →
      (Register name provider reg).2.providers name = some provider ∧
      ∀ other, other ≠ name →
        (Register name provider reg).2.providers other = reg.providers other) ∧
    (∀ bound p, reg.providers bound = some p →
      (Register name provider reg).2.providers bound = some p) := by
  unfold Register
  cases provider with
  | none => simp
  | some p =>
    cases hdup : reg.providers name with
    | none =>
      simp [hdup]
      refine ⟨?_, ?_⟩
      · intro other hne
        simp [hne]
      · intro bound q hq
        have hne : bound ≠ name := by
          intro h
          rw [h, hdup] at hq
          cases hq
        simp [hne, hq]
    | some q => simp [hdup]

/-- Witness of C5 on a registry that binds `memory`: registering `memory`
again panics and changes nothing, registering `disk` returns and binds it,
and registering `nil` panics. -/
theorem Register_spec_witness :
    (Register "memory" (some 2) oneRegistry).1.isSome ∧
    (Register "memory" (some 2) oneRegistry).2.providers = oneRegistry.providers ∧
    (Register "disk" (some 2) oneRegistry).2.providers "disk" = some (some 2) ∧
    (Register "disk" (some 2) oneRegistry).2.providers "memory" = some (some 1) ∧
    (Register "disk" none oneRegistry).1.isSome :=
  have again := Register_spec "memory" (some 2) oneRegistry
  have disk := Register_spec "disk" (some 2) oneRegistry
  have absent := Register_spec "disk" (none : Option Nat) oneRegistry
  ⟨again.1.2 (Or.inr (by decide)), again.2.1 (again.1.2 (Or.inr (by decide))),
    (disk.2.2.1 (by decide)).1, disk.2.2.2 "memory" (some 1) (by decide),
    absent.1.2 (Or.inl rfl)⟩

/-! ## The mutex -/

/-- Counterexample of C10: in a run of `SessionStart` and in a run of
`SessionDestroy` the cookie lookup is the first call and `Lock` the second,
so the discipline that puts the cookie read inside the critical section
fails on both traces. -/
theorem cookie_is_read_before_the_lock :
    callEvents memEnv (memManager.SessionStart noCookie memEnv).2 =
      [.cookieRead "gosessionid", .lock, .sessionInit "",
       .setCookie issuedCookie, .unlock] ∧
    lockDiscipline readCallWrite false
      (callEvents memEnv (memManager.SessionStart noCookie memEnv).2) = false ∧
    callEvents memEnv
        (memManager.SessionDestroy ⟨[{ Name := "gosessionid", Value := "abc" }]⟩ memEnv).2 =
      [.cookieRead "gosessionid", .lock, .sessionDestroy "abc", .timeNow,
       .setCookie { Name := "gosessionid", Path := "/", HttpOnly := true, MaxAge := -1,
                    Expires := some 5 },
       .unlock] ∧
    lockDiscipline readCallWrite false
      (callEvents memEnv
        (memManager.SessionDestroy
          ⟨[{ Name := "gosessionid", Value := "abc" }]⟩ memEnv).2) = false := by
  decide

/-- C10, amended: in every run of `SessionStart` and of `SessionDestroy` the
first call is the lookup of the request cookie, made before the mutex is
acquired. `SessionStart` always acquires the mutex right after the lookup.
A run of `SessionDestroy` on a request whose session cookie is absent, has
an empty value or cannot be unescaped makes no other call: it returns
without ever acquiring the mutex. A run of `SessionDestroy` on a cookie of
non-empty value that can be unescaped acquires the mutex right after the
lookup. In the calls that follow the lookup, every provider call and every
cookie write happens while the mutex is held, `Lock` and `Unlock`
alternate, and the mutex is free when the method returns. The run of `GC`
keeps the same discipline. -/
theorem mutex_discipline {σ S : Type} (manager : Manager σ S) (r : Request) (env : Env σ) :
    (∃ evs, callEvents env (manager.SessionStart r env).2 =
        .cookieRead manager.cookieName :: .lock :: evs ∧
      lockDiscipline callWrite false (.lock :: evs) = true) ∧
    ((∀ c, r.Cookie manager.cookieName = .ok c →
        c.Value = "" ∨ ∃ e, QueryUnescape c.Value = .error e) →
      callEvents env (manager.SessionDestroy r env).2 =
        [.cookieRead manager.cookieName]) ∧
    (∀ c sid, r.Cookie manager.cookieName = .ok c → c.Value ≠ "" →
      QueryUnescape c.Value = .ok sid →
      ∃ evs, callEvents env (manager.SessionDestroy r env).2 =
          .cookieRead manager.cookieName :: .lock :: evs ∧
        lockDiscipline callWrite false (.lock :: evs) = true) ∧
    (∃ evs, callEvents env (manager.SessionDestroy r env).2 =
        .cookieRead manager.cookieName :: evs ∧
      lockDiscipline callWrite false evs = true) ∧
    lockDiscipline callWrite false (callEvents env (manager.GC env)) = true := by
  have hlocked : ∀ c sid, r.Cookie manager.cookieName = .ok c → c.Value ≠ "" →
      QueryUnescape c.Value = .ok sid →
      ∃ evs, callEvents env (manager.SessionDestroy r env).2 =
          .cookieRead manager.cookieName :: .lock :: evs ∧
        lockDiscipline callWrite false (.lock :: evs) = true := by
    intro c sid hc hv hu
    cases hd : (manager.provider.SessionDestroy sid env.store).1 with
    | none =>
      refine ⟨[.sessionDestroy sid, .timeNow,
          .setCookie { Name := manager.cookieName, Path := "/", HttpOnly := true,
                       MaxAge := -1, Expires := some env.clock },
          .unlock], callEvents_of_append env _ _ ?_, rfl⟩
      rw [SessionDestroy_done manager r env c sid hc hv hu hd]
    | some e =>
      refine ⟨[.sessionDestroy sid, .unlock], callEvents_of_append env _ _ ?_, rfl⟩
      rw [SessionDestroy_refused manager r env c sid e hc hv hu hd]
  have hearly : (∀ c, r.Cookie manager.cookieName = .ok c →
        c.Value = "" ∨ ∃ e, QueryUnescape c.Value = .error e) →
      callEvents env (manager.SessionDestroy r env).2 =
        [.cookieRead manager.cookieName] := by
    intro hcookie
    obtain ⟨e, hout⟩ := SessionDestroy_early manager r env hcookie
    apply callEvents_of_append
    rw [hout]
    rfl
  refine ⟨?_, hearly, hlocked, ?_, ?_⟩
  · by_cases hcookie : ∀ c, r.Cookie manager.cookieName = .ok c → c.Value = ""
    · have hout := SessionStart_of_no_value manager r env hcookie
      cases hinit : (manager.provider.SessionInit manager.sessionID env.store).1 with
      | error e =>
        rw [startNew_error manager _ e (by simpa [muLock, Env.emit] using hinit)] at hout
        refine ⟨[.sessionInit manager.sessionID, .unlock],
          callEvents_of_append env _ _ ?_, rfl⟩
        rw [hout]
        simp [deferred, muLock, muUnlock, Env.emit]
      | ok session =>
        rw [startNew_ok manager _ session (by simpa [muLock, Env.emit] using hinit)] at hout
        refine ⟨[.sessionInit manager.sessionID,
            .setCookie { Name := manager.cookieName, Value := QueryEscape manager.sessionID,
                         Path := "/", HttpOnly := true,
                         MaxAge := toInt manager.maxLifeTime },
            .unlock], callEvents_of_append env _ _ ?_, rfl⟩
        rw [hout]
        simp [deferred, muLock, muUnlock, Env.emit]
    · push_neg at hcookie
      obtain ⟨c, hc, hv⟩ := hcookie
      have hout := SessionStart_of_value manager r env c hc hv
      cases hu : QueryUnescape c.Value with
      | error e =>
        rw [resume_bad_escape manager c _ e hu] at hout
        refine ⟨[.unlock], callEvents_of_append env _ _ ?_, rfl⟩
        rw [hout]
        simp [deferred, muLock, muUnlock, Env.emit]
      | ok sid =>
        rw [resume_read manager c _ sid hu] at hout
        refine ⟨[.sessionRead sid, .unlock], callEvents_of_append env _ _ ?_, rfl⟩
        rw [hout]
        simp [deferred, muLock, muUnlock, Env.emit]
  · by_cases hcookie : ∀ c, r.Cookie manager.cookieName = .ok c →
        c.Value = "" ∨ ∃ e, QueryUnescape c.Value = .error e
    · exact ⟨[], hearly hcookie, rfl⟩
    · push_neg at hcookie
      obtain ⟨c, hc, hv, hu⟩ := hcookie
      cases hsid : QueryUnescape c.Value with
      | error e => exact absurd hsid (hu e)
      | ok sid =>
        obtain ⟨evs, hevs, hdisc⟩ := hlocked c sid hc hv hsid
        exact ⟨.lock :: evs, hevs, hdisc⟩
  · rw [callEvents_of_append env (manager.GC env) _ (by rw [GC_eq])]
    rfl

/-- Witness of C10, amended, on the example manager: with a cookie that
cannot be unescaped the only call of `SessionDestroy` is the cookie lookup,
and with the cookie `abc` the lookup is followed by `Lock`. -/
theorem mutex_discipline_witness :
    callEvents memEnv
        (memManager.SessionDestroy ⟨[{ Name := "gosessionid", Value := "%" }]⟩ memEnv).2 =
      [.cookieRead "gosessionid"] ∧
    (∃ evs, callEvents memEnv
        (memManager.SessionDestroy ⟨[{ Name := "gosessionid", Value := "abc" }]⟩ memEnv).2 =
          .cookieRead "gosessionid" :: .lock :: evs ∧
      lockDiscipline callWrite false (.lock :: evs) = true) :=
  ⟨(mutex_discipline memManager ⟨[{ Name := "gosessionid", Value := "%" }]⟩ memEnv).2.1
      (by
        intro c hc
        have hfound : (⟨[{ Name := "gosessionid", Value := "%" }]⟩ : Request).Cookie
            memManager.cookieName = .ok { Name := "gosessionid", Value := "%" } := by
          decide
        rw [hfound] at hc
        cases hc
        exact Or.inr ⟨.EscapeError "%", by decide⟩),
    (mutex_discipline memManager ⟨[{ Name := "gosessionid", Value := "abc" }]⟩ memEnv).2.2.1
      { Name := "gosessionid", Value := "abc" } "abc" (by decide) (by decide) (by decide)⟩

/-! ## The identifier -/

/-- The identifier that `sessionID` returns is the empty string, for every
manager. -/
theorem sessionID_eq {σ S : Type} (manager : Manager σ S) : manager.sessionID = "" := rfl

/-- C1 on the example manager: two calls of `SessionStart` for two requests
without cookies pass the same identifier, the empty string, to
`SessionInit`; the first call returns the session of that identifier and the
second fails on the duplicate, which the store holds once. -/
theorem SessionStart_twice_same_identifier :
    firstStart.1 = .ok { sid := "" } ∧
    (callEvents memEnv firstStart.2).filter Event.isSessionInit = [.sessionInit ""] ∧
    secondStart.1 = .error (.Other "DuplicateSession") ∧
    (callEvents (nextRequest firstStart.2) secondStart.2).filter Event.isSessionInit =
      [.sessionInit ""] ∧
    secondStart.2.store.entries.map (fun e => e.1.sid) = [""] := by
  decide

/-- C3 on the example manager: the first call returns the session of the
empty identifier and hands the response a cookie of empty value; the call
that replays this cookie treats it as absent, calls `SessionInit` on the
same identifier instead of `SessionRead`, and returns the error of the
duplicate. -/
theorem SessionStart_replay_fails :
    firstStart.1 = .ok { sid := "" } ∧
    firstStart.2.w = [issuedCookie] ∧
    issuedCookie.Value = QueryEscape "" ∧
    replayStart.1 = .error (.Other "DuplicateSession") ∧
    callEvents (nextRequest firstStart.2) replayStart.2 =
      [.cookieRead "gosessionid", .lock, .sessionInit "", .unlock] := by
  decide

end Session
